import Mathlib

/-
Shallow embedding of the shared-memory channel in
src/libraries/core/src/shared_memory/channel.rs.

The shared region is modelled as an explicit record of the fields the channel
protocol reads and writes: the disconnect flag, the 64-bit length field, the
bytes of the payload (data) region, and the states of the two wakeup events
stored at the front of the region.  Each channel operation is translated into
a pure function that returns a status, a trace of the shared-memory actions it
performed (in program order), and the resulting shared state.  External
effects whose outcome the code branches on (the fallible event set call, the
fallible event wait call) are passed in as explicit boolean outcomes.  The
serializer (bincode) is external to this core: send is modelled at the
send_raw level, on the already-encoded byte list, and receive returns the raw
byte list it hands to the deserializer.

Machine integers: the length field is a u64 and the sizes are usize.  The
usize to u64 cast in send_raw and the u64 to usize cast in receive are
lossless on the 64-bit platforms the crate targets, so both are modelled as
Nat.  The subtraction memory.len() - data_offset is usize subtraction; it is
modelled as truncated Nat subtraction, which agrees with the source whenever
the region capacity is at least data_offset (the only configurations the
claims are about).
-/

namespace Shmem

/-- State of a raw_sync event: Clear or Signaled. -/
inductive EventState where
  | clear
  | signaled
deriving DecidableEq, Repr

/-- The two events stored inline at the front of the region. -/
inductive EventTarget where
  | serverEvt
  | clientEvt
deriving DecidableEq, Repr

/-- Atomic memory orderings that appear in channel.rs. -/
inductive MemOrder where
  | relaxed
  | acquire
  | release
deriving DecidableEq, Repr

/-- One shared-memory action of the channel protocol, recorded in program
order.  copyPayload is the plain (non-atomic) copy_from_nonoverlapping into
the data region; storeLen and loadLen are the atomic accesses to the length
field; loadDisconnect and storeDisconnect access the disconnect flag;
setEvent and waitEvent are calls into the event backend (setEvent records the
attempted call whether or not the backend reports success); readPayload is
the raw read of the payload bytes; openEvent is the read-only
Event.from_existing parse performed by new_client. -/
inductive Action where
  | copyPayload (bytes : List Nat)
  | storeLen (n : Nat) (ord : MemOrder)
  | loadLen (ord : MemOrder)
  | loadDisconnect (ord : MemOrder)
  | storeDisconnect (b : Bool) (ord : MemOrder)
  | setEvent (t : EventTarget) (s : EventState)
  | waitEvent (t : EventTarget)
  | readPayload (n : Nat)
  | openEvent (t : EventTarget)
deriving DecidableEq, Repr

/-- The shared fields of the region that the channel protocol touches.
data is the content of the payload region, i.e. the bytes starting at
data_offset. -/
structure SharedState where
  disconnect : Bool
  lenField : Nat
  data : List Nat
  serverEvent : EventState
  clientEvent : EventState
deriving DecidableEq, Repr

/-- The per-process ShmemChannel struct: the region capacity memory.len(),
the three computed offsets, and the role flag. -/
structure ShmemChannel where
  memLen : Nat
  disconnectOffset : Nat
  lenOffset : Nat
  dataOffset : Nat
  server : Bool
deriving DecidableEq, Repr

/-- mem::size_of::<AtomicBool>() in Rust. -/
def atomicBoolSize : Nat := 1

/-- mem::size_of::<AtomicU64>() in Rust. -/
def atomicU64Size : Nat := 8

/-- The offsets function of channel.rs (lines 185-190): byte offsets of the
disconnect flag, the length field and the data region, computed from the two
event sizes reported by the backend. -/
def offsets (serverEventLen clientEventLen : Nat) : Nat × Nat × Nat :=
  let disconnectOffset := serverEventLen + clientEventLen
  let lenOffset := disconnectOffset + atomicBoolSize
  let dataOffset := lenOffset + atomicU64Size
  (disconnectOffset, lenOffset, dataOffset)

/-- The event send_raw signals: the server signals client_event, the client
signals server_event. -/
def peerEvent (ch : ShmemChannel) : EventTarget :=
  if ch.server then EventTarget.clientEvt else EventTarget.serverEvt

/-- The event receive waits on: the server waits on server_event, the client
on client_event. -/
def ownEvent (ch : ShmemChannel) : EventTarget :=
  if ch.server then EventTarget.serverEvt else EventTarget.clientEvt

/-- Effect of copy_from_nonoverlapping(msg, msg.len()) on the data region:
the first msg.length bytes are overwritten, the rest is unchanged. -/
def writeBytes (dst src : List Nat) : List Nat :=
  src ++ dst.drop src.length

/-- Set the stored state of one event. -/
def setEventState (st : SharedState) (t : EventTarget) (s : EventState) : SharedState :=
  match t with
  | EventTarget.serverEvt => { st with serverEvent := s }
  | EventTarget.clientEvt => { st with clientEvent := s }

/-- Outcome of send_raw: the assertion panicked, or the function returned
Ok(()), or it returned Err because the event set call failed. -/
inductive SendStatus where
  | panicked
  | ok
  | err
deriving DecidableEq, Repr

structure SendResult where
  status : SendStatus
  trace : List Action
  state : SharedState
deriving DecidableEq, Repr

/-- send_raw of channel.rs (lines 93-114).  The boolean signalOk is the
outcome of the event.set(Signaled) backend call: the call itself is always
attempted once the assertion passes, and its attempted action is recorded in
the trace; on backend failure the event state is not changed and send_raw
returns Err. -/
def send_raw (ch : ShmemChannel) (st : SharedState) (msg : List Nat)
    (signalOk : Bool) : SendResult :=
  if msg.length ≤ ch.memLen - ch.dataOffset then
    let st1 : SharedState := { st with data := writeBytes st.data msg }
    let st2 : SharedState := { st1 with lenField := msg.length }
    let tr : List Action :=
      [Action.copyPayload msg, Action.storeLen msg.length MemOrder.release,
       Action.setEvent (peerEvent ch) EventState.signaled]
    if signalOk then
      { status := SendStatus.ok, trace := tr,
        state := setEventState st2 (peerEvent ch) EventState.signaled }
    else
      { status := SendStatus.err, trace := tr, state := st2 }
  else
    { status := SendStatus.panicked, trace := [], state := st }

/-- Outcome of receive: the event wait failed (timeout or backend error), or
the disconnect flag was set and receive returned Ok(None), or one of the two
length assertions panicked, or the length bytes were read and handed to the
deserializer (which is external and does not touch the shared region; its
success yields Ok(Some v), its failure a DecodeError). -/
inductive RecvStatus where
  | waitFailed
  | disconnected
  | panicked
  | gotBytes (bytes : List Nat)
deriving DecidableEq, Repr

structure RecvResult where
  status : RecvStatus
  trace : List Action
  state : SharedState
deriving DecidableEq, Repr

/-- receive of channel.rs (lines 116-154).  The boolean waitOk is the outcome
of the event.wait call; on success the wait consumes the signal (the events
are created with auto-reset), which is the only event-state effect of
receive.  After a successful wait the code checks the disconnect flag with
acquire ordering, then loads the length with acquire ordering, asserts it is
nonzero and strictly below memory.len() - data_offset, and finally reads that
many bytes from the data region. -/
def receive (ch : ShmemChannel) (st : SharedState) (waitOk : Bool) : RecvResult :=
  let own := ownEvent ch
  if waitOk then
    let st1 := setEventState st own EventState.clear
    if st1.disconnect then
      { status := RecvStatus.disconnected,
        trace := [Action.waitEvent own, Action.loadDisconnect MemOrder.acquire],
        state := st1 }
    else
      let msgLen := st1.lenField
      if msgLen = 0 then
        { status := RecvStatus.panicked,
          trace := [Action.waitEvent own, Action.loadDisconnect MemOrder.acquire,
                    Action.loadLen MemOrder.acquire],
          state := st1 }
      else if msgLen < ch.memLen - ch.dataOffset then
        { status := RecvStatus.gotBytes (st1.data.take msgLen),
          trace := [Action.waitEvent own, Action.loadDisconnect MemOrder.acquire,
                    Action.loadLen MemOrder.acquire, Action.readPayload msgLen],
          state := st1 }
      else
        { status := RecvStatus.panicked,
          trace := [Action.waitEvent own, Action.loadDisconnect MemOrder.acquire,
                    Action.loadLen MemOrder.acquire],
          state := st1 }
  else
    { status := RecvStatus.waitFailed, trace := [Action.waitEvent own], state := st }

structure DropResult where
  trace : List Action
  state : SharedState
deriving DecidableEq, Repr

/-- Drop for ShmemChannel of channel.rs (lines 195-214).  The server branch
only loads the disconnect flag with acquire ordering for logging.  The client
branch stores true into the disconnect flag with release ordering and then
sets server_event to Signaled; a failure of that set call is only logged, so
the attempted action is recorded unconditionally and the boolean signalOk
decides whether the event state changes. -/
def dropChannel (ch : ShmemChannel) (st : SharedState) (signalOk : Bool) : DropResult :=
  if ch.server then
    { trace := [Action.loadDisconnect MemOrder.acquire], state := st }
  else
    let st1 : SharedState := { st with disconnect := true }
    let st2 := if signalOk then
        setEventState st1 EventTarget.serverEvt EventState.signaled
      else st1
    { trace := [Action.storeDisconnect true MemOrder.release,
                Action.setEvent EventTarget.serverEvt EventState.signaled],
      state := st2 }

structure OpenResult where
  channel : Option ShmemChannel
  trace : List Action
  state : SharedState
deriving DecidableEq, Repr

/-- new_client of channel.rs (lines 64-82).  Event.from_existing is a
read-only parse of the event representation already present in the region; it
either fails or reports the event handle together with its byte length.  The
two optional arguments are those outcomes for the server event and the client
event.  On success the offsets are computed from the reported lengths and the
channel is returned with the client role; nothing is written to the region on
any path. -/
def new_client (memLen : Nat) (st : SharedState)
    (serverOpen clientOpen : Option Nat) : OpenResult :=
  match serverOpen with
  | none =>
    { channel := none, trace := [Action.openEvent EventTarget.serverEvt], state := st }
  | some sLen =>
    match clientOpen with
    | none =>
      { channel := none,
        trace := [Action.openEvent EventTarget.serverEvt,
                  Action.openEvent EventTarget.clientEvt],
        state := st }
    | some cLen =>
      let o := offsets sLen cLen
      { channel := some { memLen := memLen, disconnectOffset := o.1,
                          lenOffset := o.2.1, dataOffset := o.2.2, server := false },
        trace := [Action.openEvent EventTarget.serverEvt,
                  Action.openEvent EventTarget.clientEvt],
        state := st }

/-- Iterated receive: the shared state after a sequence of receive calls
whose wait outcomes are the given list. -/
def receiveIter (ch : ShmemChannel) (st : SharedState) : List Bool → SharedState
  | [] => st
  | w :: ws => receiveIter ch (receive ch st w).state ws

/-- Concrete client-role channel used for witnesses: event representations of
lengths 2 and 1, so offsets 2 1 gives disconnect at 3, length at 4, data at
12; region capacity 16, hence payload capacity 4. -/
def chClient0 : ShmemChannel :=
  { memLen := 16, disconnectOffset := 3, lenOffset := 4, dataOffset := 12,
    server := false }

/-- The server-role channel on the same region as chClient0. -/
def chServer0 : ShmemChannel :=
  { memLen := 16, disconnectOffset := 3, lenOffset := 4, dataOffset := 12,
    server := true }

/-- A freshly initialized shared state on that region: flag false, length 0,
payload region of 4 zero bytes, both events Clear. -/
def st0 : SharedState :=
  { disconnect := false, lenField := 0, data := [0, 0, 0, 0],
    serverEvent := EventState.clear, clientEvent := EventState.clear }

theorem setEventState_disconnect (st : SharedState) (t : EventTarget) (s : EventState) :
    (setEventState st t s).disconnect = st.disconnect := by
  cases t <;> rfl

theorem setEventState_lenField (st : SharedState) (t : EventTarget) (s : EventState) :
    (setEventState st t s).lenField = st.lenField := by
  cases t <;> rfl

theorem setEventState_data (st : SharedState) (t : EventTarget) (s : EventState) :
    (setEventState st t s).data = st.data := by
  cases t <;> rfl

/-- Helper: a single receive call leaves the disconnect flag, the length
field and the payload bytes unchanged, on every path. -/
theorem receive_preserves_fields (ch : ShmemChannel) (st : SharedState) (w : Bool) :
    (receive ch st w).state.disconnect = st.disconnect ∧
    (receive ch st w).state.lenField = st.lenField ∧
    (receive ch st w).state.data = st.data := by
  unfold receive
  cases w with
  | false => exact ⟨rfl, rfl, rfl⟩
  | true =>
    simp only [if_true]
    split
    · exact ⟨setEventState_disconnect .., setEventState_lenField .., setEventState_data ..⟩
    · split
      · exact ⟨setEventState_disconnect .., setEventState_lenField .., setEventState_data ..⟩
      · split
        · exact ⟨setEventState_disconnect .., setEventState_lenField .., setEventState_data ..⟩
        · exact ⟨setEventState_disconnect .., setEventState_lenField .., setEventState_data ..⟩

/-- C4: for every pair of event sizes, offsets returns
disconnect_offset = server_event_size + client_event_size,
length_offset = disconnect_offset + the size of the atomic boolean field, and
data_offset = length_offset + 8. -/
theorem offsets_layout (s c : Nat) :
    offsets s c = (s + c, (s + c) + atomicBoolSize, ((s + c) + atomicBoolSize) + 8) := by
  rfl

/-- C2: every successful send performs, in program order, the plain copy of
the payload bytes, then the release-ordered store of the new length, then one
Signaled set of the event of the peer (client_event when the sender is the
server, server_event when it is the client); it returns Ok once the set call
returns, with no wait action anywhere in the trace. -/
theorem send_success_order (ch : ShmemChannel) (st : SharedState) (msg : List Nat)
    (hfit : msg.length ≤ ch.memLen - ch.dataOffset) :
    (send_raw ch st msg true).status = SendStatus.ok ∧
    (send_raw ch st msg true).trace =
      [Action.copyPayload msg, Action.storeLen msg.length MemOrder.release,
       Action.setEvent (peerEvent ch) EventState.signaled] ∧
    ∀ t, Action.waitEvent t ∉ (send_raw ch st msg true).trace := by
  unfold send_raw
  rw [if_pos hfit]
  refine ⟨rfl, rfl, ?_⟩
  intro t
  simp

theorem send_success_order_witness :
    ([9, 8] : List Nat).length ≤ chClient0.memLen - chClient0.dataOffset ∧
    ((send_raw chClient0 st0 [9, 8] true).status = SendStatus.ok ∧
     (send_raw chClient0 st0 [9, 8] true).trace =
       [Action.copyPayload [9, 8], Action.storeLen ([9, 8] : List Nat).length MemOrder.release,
        Action.setEvent (peerEvent chClient0) EventState.signaled] ∧
     ∀ t, Action.waitEvent t ∉ (send_raw chClient0 st0 [9, 8] true).trace) :=
  ⟨by decide, send_success_order chClient0 st0 [9, 8] (by decide)⟩

/-- C5: when the encoded size exceeds memory.len() - data_offset, send_raw
hits its precondition assertion before performing any action: the trace is
empty and the shared state, in particular the length field and the payload
bytes, is exactly the pre-state. -/
theorem send_oversize_no_write (ch : ShmemChannel) (st : SharedState) (msg : List Nat)
    (signalOk : Bool) (h : ch.memLen - ch.dataOffset < msg.length) :
    send_raw ch st msg signalOk =
      { status := SendStatus.panicked, trace := [], state := st } := by
  unfold send_raw
  rw [if_neg (Nat.not_le.mpr h)]

theorem send_oversize_no_write_witness :
    chClient0.memLen - chClient0.dataOffset < ([1, 2, 3, 4, 5] : List Nat).length ∧
    send_raw chClient0 st0 [1, 2, 3, 4, 5] true =
      { status := SendStatus.panicked, trace := [], state := st0 } :=
  ⟨by decide, send_oversize_no_write chClient0 st0 [1, 2, 3, 4, 5] true (by decide)⟩

/-- C9: when the event set call fails after the assertion passed, send_raw
returns Err, yet the payload bytes have already been copied into the data
region and the length field already holds the new length with the release
store: the message is published despite the error return. -/
theorem send_signal_failure_publishes (ch : ShmemChannel) (st : SharedState)
    (msg : List Nat) (hfit : msg.length ≤ ch.memLen - ch.dataOffset) :
    (send_raw ch st msg false).status = SendStatus.err ∧
    (send_raw ch st msg false).state.lenField = msg.length ∧
    (send_raw ch st msg false).state.data = writeBytes st.data msg := by
  unfold send_raw
  rw [if_pos hfit]
  exact ⟨rfl, rfl, rfl⟩

theorem send_signal_failure_publishes_witness :
    ([7] : List Nat).length ≤ chClient0.memLen - chClient0.dataOffset ∧
    ((send_raw chClient0 st0 [7] false).status = SendStatus.err ∧
     (send_raw chClient0 st0 [7] false).state.lenField = ([7] : List Nat).length ∧
     (send_raw chClient0 st0 [7] false).state.data = writeBytes st0.data [7]) :=
  ⟨by decide, send_signal_failure_publishes chClient0 st0 [7] (by decide)⟩

/-- C3: when the event wait of receive succeeds and the disconnect flag reads
true under the acquire load, receive returns Ok(None) at once: its trace is
exactly the wait and the disconnect load, so the length field is never
loaded, no payload byte is read, and no decode is attempted. -/
theorem receive_disconnect_early_return (ch : ShmemChannel) (st : SharedState)
    (hd : st.disconnect = true) :
    (receive ch st true).status = RecvStatus.disconnected ∧
    (receive ch st true).trace =
      [Action.waitEvent (ownEvent ch), Action.loadDisconnect MemOrder.acquire] ∧
    (∀ o, Action.loadLen o ∉ (receive ch st true).trace) ∧
    ∀ n, Action.readPayload n ∉ (receive ch st true).trace := by
  unfold receive
  simp only [if_true]
  rw [if_pos (by rw [setEventState_disconnect]; exact hd)]
  refine ⟨rfl, rfl, ?_, ?_⟩ <;> intro x <;> simp

theorem receive_disconnect_early_return_witness :
    ({ st0 with disconnect := true } : SharedState).disconnect = true ∧
    ((receive chServer0 { st0 with disconnect := true } true).status =
       RecvStatus.disconnected ∧
     (receive chServer0 { st0 with disconnect := true } true).trace =
       [Action.waitEvent (ownEvent chServer0), Action.loadDisconnect MemOrder.acquire] ∧
     (∀ o, Action.loadLen o ∉ (receive chServer0 { st0 with disconnect := true } true).trace) ∧
     ∀ n, Action.readPayload n ∉
       (receive chServer0 { st0 with disconnect := true } true).trace) :=
  ⟨rfl, receive_disconnect_early_return chServer0 { st0 with disconnect := true } rfl⟩

/-- C6: the client-role Drop stores true into the disconnect flag with
release ordering and then sets server_event to Signaled, in that order; the
trace contains no wait action, so drop returns without waiting for any server
acknowledgment, and the flag is true in the resulting state. -/
theorem client_drop_order (ch : ShmemChannel) (st : SharedState) (signalOk : Bool)
    (hc : ch.server = false) :
    (dropChannel ch st signalOk).trace =
      [Action.storeDisconnect true MemOrder.release,
       Action.setEvent EventTarget.serverEvt EventState.signaled] ∧
    (dropChannel ch st signalOk).state.disconnect = true ∧
    ∀ t, Action.waitEvent t ∉ (dropChannel ch st signalOk).trace := by
  unfold dropChannel
  rw [if_neg (by rw [hc]; exact Bool.false_ne_true)]
  refine ⟨rfl, ?_, ?_⟩
  · cases signalOk with
    | false => rfl
    | true => rfl
  · intro t
    simp

theorem client_drop_order_witness :
    chClient0.server = false ∧
    ((dropChannel chClient0 st0 true).trace =
       [Action.storeDisconnect true MemOrder.release,
        Action.setEvent EventTarget.serverEvt EventState.signaled] ∧
     (dropChannel chClient0 st0 true).state.disconnect = true ∧
     ∀ t, Action.waitEvent t ∉ (dropChannel chClient0 st0 true).trace) :=
  ⟨rfl, client_drop_order chClient0 st0 true rfl⟩

/-- C7: the server-role Drop only performs the acquire load of the disconnect
flag used for logging; the resulting shared state equals the pre-state in
every field (flag, length, payload bytes, both event states), and in
particular the event of the client is never signaled. -/
theorem server_drop_no_writes (ch : ShmemChannel) (st : SharedState) (signalOk : Bool)
    (hs : ch.server = true) :
    dropChannel ch st signalOk =
      { trace := [Action.loadDisconnect MemOrder.acquire], state := st } := by
  unfold dropChannel
  rw [if_pos hs]

theorem server_drop_no_writes_witness :
    chServer0.server = true ∧
    dropChannel chServer0 st0 true =
      { trace := [Action.loadDisconnect MemOrder.acquire], state := st0 } :=
  ⟨rfl, server_drop_no_writes chServer0 st0 true rfl⟩

/-- C8: new_client performs no write to the shared region on any path: the
resulting shared state (disconnect flag, length field, payload bytes, both
event states) equals the pre-state exactly, and every action in its trace is
a read-only open of one of the two existing events. -/
theorem new_client_no_writes (memLen : Nat) (st : SharedState)
    (serverOpen clientOpen : Option Nat) :
    (new_client memLen st serverOpen clientOpen).state = st ∧
    ∀ a ∈ (new_client memLen st serverOpen clientOpen).trace,
      ∃ t, a = Action.openEvent t := by
  cases serverOpen with
  | none =>
    refine ⟨rfl, ?_⟩
    intro a ha
    simp only [new_client, List.mem_singleton] at ha
    exact ⟨EventTarget.serverEvt, ha⟩
  | some sLen =>
    cases clientOpen with
    | none =>
      refine ⟨rfl, ?_⟩
      intro a ha
      simp only [new_client, List.mem_cons, List.not_mem_nil, or_false] at ha
      rcases ha with h | h
      · exact ⟨EventTarget.serverEvt, h⟩
      · exact ⟨EventTarget.clientEvt, h⟩
    | some cLen =>
      refine ⟨rfl, ?_⟩
      intro a ha
      simp only [new_client, List.mem_cons, List.not_mem_nil, or_false] at ha
      rcases ha with h | h
      · exact ⟨EventTarget.serverEvt, h⟩
      · exact ⟨EventTarget.clientEvt, h⟩

/-- C10: any number of receive calls, with any wait outcomes, leaves the
length field, the payload bytes, and the disconnect flag unchanged: without a
new send, the previously stored length and payload pair remains in the
message slot. -/
theorem receive_no_shared_writes (ch : ShmemChannel) (st : SharedState)
    (ws : List Bool) :
    (receiveIter ch st ws).disconnect = st.disconnect ∧
    (receiveIter ch st ws).lenField = st.lenField ∧
    (receiveIter ch st ws).data = st.data := by
  induction ws generalizing st with
  | nil => exact ⟨rfl, rfl, rfl⟩
  | cons w ws ih =>
    obtain ⟨g1, g2, g3⟩ := receive_preserves_fields ch st w
    obtain ⟨h1, h2, h3⟩ := ih (receive ch st w).state
    exact ⟨h1.trans g1, h2.trans g2, h3.trans g3⟩

/-- C1 counterexample: the empty encoded message has size 0, which passes the
precondition of send_raw (0 is at most the payload capacity) and is accepted
with Ok, but the peer receive then loads length 0 and hits the fatal
assert_ne, i.e. its status is panicked: the invariant of receive is not
implied by the precondition of send. -/
theorem send_accept_not_receive_safe :
    ([] : List Nat).length ≤ chClient0.memLen - chClient0.dataOffset ∧
    (send_raw chClient0 st0 [] true).status = SendStatus.ok ∧
    (receive chServer0 (send_raw chClient0 st0 [] true).state true).status =
      RecvStatus.panicked := by
  decide

/-- C1 (amended): for every message whose encoded size is nonzero and
strictly below capacity - data_offset, the peer receive that follows a send
loads a length field equal to that size, the size satisfies the receive
invariant (nonzero and strictly below the payload capacity), and no run of
receive on the post-send state can reach the fatal assertions. -/
theorem send_strict_receive_invariant (chS chR : ShmemChannel) (st : SharedState)
    (msg : List Nat) (signalOk waitOk : Bool)
    (hm : chR.memLen = chS.memLen) (hd : chR.dataOffset = chS.dataOffset)
    (h0 : 0 < msg.length) (h1 : msg.length < chS.memLen - chS.dataOffset) :
    (send_raw chS st msg signalOk).state.lenField = msg.length ∧
    msg.length ≠ 0 ∧ msg.length < chR.memLen - chR.dataOffset ∧
    (receive chR (send_raw chS st msg signalOk).state waitOk).status ≠
      RecvStatus.panicked := by
  have hcap : msg.length < chR.memLen - chR.dataOffset := by rw [hm, hd]; exact h1
  have hlen : (send_raw chS st msg signalOk).state.lenField = msg.length := by
    unfold send_raw
    rw [if_pos (Nat.le_of_lt h1)]
    cases signalOk with
    | false => rfl
    | true => simp only [if_true]; exact setEventState_lenField ..
  refine ⟨hlen, Nat.pos_iff_ne_zero.mp h0, hcap, ?_⟩
  unfold receive
  cases waitOk with
  | false => simp
  | true =>
    simp only [if_true]
    split
    · simp
    · rw [setEventState_lenField, hlen]
      rw [if_neg (Nat.pos_iff_ne_zero.mp h0), if_pos hcap]
      simp

theorem send_strict_receive_invariant_witness :
    chServer0.memLen = chClient0.memLen ∧ chServer0.dataOffset = chClient0.dataOffset ∧
    0 < ([7] : List Nat).length ∧
    ([7] : List Nat).length < chClient0.memLen - chClient0.dataOffset ∧
    ((send_raw chClient0 st0 [7] true).state.lenField = ([7] : List Nat).length ∧
     ([7] : List Nat).length ≠ 0 ∧
     ([7] : List Nat).length < chServer0.memLen - chServer0.dataOffset ∧
     (receive chServer0 (send_raw chClient0 st0 [7] true).state true).status ≠
       RecvStatus.panicked) :=
  ⟨rfl, rfl, by decide, by decide,
   send_strict_receive_invariant chClient0 chServer0 st0 [7] true true rfl rfl
     (by decide) (by decide)⟩

end Shmem
